import Mathlib

/-!
Verification of `src/scripts/configure_printer.py` (Sharp printer SMTP
configuration automation).

The script is a sequential Selenium workflow. We embed it shallowly:

* Each method of `SharpPrinterConfigurator` becomes a Lean function over an
  `Env` describing the page contents (button texts, body text, password-type
  input fields) and fault injection (whether an underlying browser call raises
  inside each step, mirroring Python exceptions).
* Side effects (clicks, `send_keys`, screenshots, `time.sleep`, console
  prints, `driver.quit`, `exit(1)`) are recorded as an event trace (`List Ev`),
  so temporal claims (submit gated on test outcome, teardown exactly once)
  become statements about the trace of `run`.
* Python's `"sub" in s` substring test is `strContains`, `s.lower()` is
  `strLower`, and the three-valued return of `test_connection`
  (`True` / `False` / `None`) is `Option Bool`, with Python truthiness of
  `if test_result:` being `= some true`.
-/

/-- Embedding of Python's substring test `needle in hay`. -/
def strContains (hay needle : String) : Bool :=
  decide (needle.toList <:+: hay.toList)

/-- Embedding of Python's `str.lower()` (ASCII case folding suffices for the
substrings the script matches). -/
def strLower (s : String) : String :=
  String.mk (s.toList.map Char.toLower)

/-- Observable events of one run of the script: browser interactions, console
messages by severity tag, screenshots, sleeps, process exit and teardown.
The `loginCall`/`configureCall`/`testCall`/`submitCall` markers record the
method invocations made by `run` itself. -/
inductive Ev : Type
  | setup : Ev
  | loginCall : Ev
  | configureCall : Ev
  | testCall : Ev
  | submitCall : Ev
  | click : Nat → Ev
  | sendKeys : String → Ev
  | screenshot : String → Ev
  | sleep : Nat → Ev
  | warn : String → Ev
  | info : String → Ev
  | error : String → Ev
  | success : String → Ev
  | exitProc : Nat → Ev
  | quit : Ev
  deriving DecidableEq, Repr

/-- How the `try` block of `run` terminates: normally, by a caught Python
exception, or by `exit(1)` (a `SystemExit`, which `except Exception` does not
catch). -/
inductive RunExit : Type
  | normal : RunExit
  | raised : RunExit
  | procExit : Nat → RunExit
  deriving DecidableEq, Repr

/-- The page contents and fault injection a run is exposed to.  `loginOk`,
`configOk` say whether an underlying browser call raises inside `login` /
`configure_smtp` (other than the device-password block, which catches its own
exceptions); `testExc`, `submitExc` likewise for `test_connection` and
`submit_configuration`.  `passwordFields` are the password-type inputs found
on the SMTP form, `buttons` the texts of the page's buttons, `bodyText` the
page body text read after the connection test. -/
structure Env : Type where
  setupOk : Bool
  loginOk : Bool
  configOk : Bool
  passwordFields : List String
  testExc : Bool
  buttons : List String
  bodyText : String
  submitExc : Bool
  screenshotOnFailure : Bool
  deriving DecidableEq, Repr

/-- Lines 31-39, `_load_config`: opening the file either yields the parsed
config or raises `FileNotFoundError`, upon which the script prints two
messages and calls `exit(1)`.  The filesystem is the function `readFile`;
the `Except.error` carries the exit status and the printed messages. -/
def load_config (α : Type) (readFile : String → Option α) (config_path : String) :
    Except (Nat × List String) α :=
  match readFile config_path with
  | some cfg => Except.ok cfg
  | none =>
      Except.error (1,
        ["[ERROR] Config file not found: " ++ config_path,
         "[INFO] Copy config.example.yaml to config.yaml and customize it"])

/-- Lines 69-104, `login`: on success it sleeps 2, prints the success message
and takes the `01_logged_in` screenshot; on an exception it prints the error,
takes the `error_login_failed` screenshot and re-raises (second component
`false`). -/
def login (env : Env) : List Ev × Bool :=
  if env.loginOk then
    ([Ev.sleep 2, Ev.success "Logged in successfully", Ev.screenshot "01_logged_in"], true)
  else
    ([Ev.error "Login failed", Ev.screenshot "error_login_failed"], false)

/-- Lines 159-169: the device-password field is `all_password_fields[-1]` when
two or more password-type inputs exist, `all_password_fields[0]` when exactly
one exists, and `None` otherwise. -/
def devicePasswordField (fields : List String) : Option String :=
  if 2 ≤ fields.length then fields.getLast?
  else if fields.length = 1 then fields.head?
  else none

/-- Lines 106-187, `configure_smtp`: if an underlying call raises outside the
device-password block, prints the error, takes `error_config_failed` and
re-raises.  Otherwise the device-password block writes the password into the
field chosen by `devicePasswordField`, or prints a warning when none was found
(lines 171-176), and the method finishes with the `02_config_filled`
screenshot and the success message (lines 181-182). -/
def configure_smtp (env : Env) : List Ev × Bool :=
  if env.configOk then
    ((match devicePasswordField env.passwordFields with
      | some f => [Ev.sendKeys f]
      | none => [Ev.warn "Could not find device password field"]) ++
     [Ev.screenshot "02_config_filled", Ev.success "SMTP configuration filled"], true)
  else
    ([Ev.error "Configuration failed", Ev.screenshot "error_config_failed"], false)

/-- Lines 195-199 and 231-235: index of the first button whose text, lowered,
contains `needle`; `none` when no button matches (the `for` loop then simply
does not click). -/
def findButton (buttons : List String) (needle : String) : Option Nat :=
  buttons.findIdx? (fun b => strContains (strLower b) needle)

/-- Lines 207-218: classify the page body text.  Success substrings are
checked first (`ALL TESTS PASSED`, `SUCCESSFUL`, both case-sensitive), then
failure substrings (`FAILED` case-sensitive, `error` against the lowered
body), else the result is unclear (`None`). -/
def classifyBody (body : String) : Option Bool :=
  if strContains body "ALL TESTS PASSED" || strContains body "SUCCESSFUL" then some true
  else if strContains body "FAILED" || strContains (strLower body) "error" then some false
  else none

/-- Events of the click-first-matching-button loop: one click when a button
matches, none otherwise. -/
def clickEvents (buttons : List String) (needle : String) : List Ev :=
  match findButton buttons needle with
  | some i => [Ev.click i]
  | none => []

/-- Lines 189-223, `test_connection`: clicks the first button containing
`test`, sleeps 3, classifies the body text and screenshots accordingly,
returning `True` / `False` / `None`.  Any exception inside the body is caught:
the method prints the error, takes `error_test_failed` and returns `False`
(never re-raises). -/
def test_connection (env : Env) : Option Bool × List Ev :=
  if env.testExc then
    (some false, [Ev.error "Test connection failed", Ev.screenshot "error_test_failed"])
  else
    match classifyBody env.bodyText with
    | some true =>
        (some true,
         clickEvents env.buttons "test" ++
          [Ev.sleep 3, Ev.success "SMTP connection test PASSED",
           Ev.screenshot "03_test_success"])
    | some false =>
        (some false,
         clickEvents env.buttons "test" ++
          [Ev.sleep 3, Ev.error "SMTP connection test FAILED",
           Ev.screenshot "03_test_failed"])
    | none =>
        (none,
         clickEvents env.buttons "test" ++
          [Ev.sleep 3, Ev.warn "Test results unclear",
           Ev.screenshot "03_test_unknown"])

/-- Lines 225-244, `submit_configuration`: clicks the first button containing
`submit` (skipping the click when none matches), sleeps 2, takes the
`04_submitted` screenshot and prints the success message.  An exception from
an underlying call prints the error, takes `error_submit_failed` and
re-raises (second component `false`). -/
def submit_configuration (env : Env) : List Ev × Bool :=
  if env.submitExc then
    ([Ev.error "Submit failed", Ev.screenshot "error_submit_failed"], false)
  else
    (clickEvents env.buttons "submit" ++
      [Ev.sleep 2, Ev.screenshot "04_submitted",
       Ev.success "Configuration submitted successfully"], true)

/-- Lines 246-279, the `try` block of `run`: `setup_driver` (which calls
`exit(1)` when the WebDriver cannot start — a `SystemExit` that the
`except Exception` below does not catch), then `login`, `configure_smtp`, and
the three mode branches: `test_only` wins over `skip_test`; the default mode
submits only when `if test_result:` is truthy, i.e. the outcome is `True`. -/
def runTry (env : Env) (test_only skip_test : Bool) : List Ev × RunExit :=
  if env.setupOk = false then
    ([Ev.error "Failed to initialize WebDriver",
      Ev.info "Make sure Chrome and ChromeDriver are installed",
      Ev.exitProc 1], RunExit.procExit 1)
  else
    match login env with
    | (lev, false) => ([Ev.setup, Ev.loginCall] ++ lev, RunExit.raised)
    | (lev, true) =>
      match configure_smtp env with
      | (cev, false) =>
          ([Ev.setup, Ev.loginCall] ++ lev ++ [Ev.configureCall] ++ cev, RunExit.raised)
      | (cev, true) =>
        if test_only then
          ([Ev.setup, Ev.loginCall] ++ lev ++ [Ev.configureCall] ++ cev ++
            [Ev.info "Testing connection without submitting", Ev.testCall] ++
            (test_connection env).2, RunExit.normal)
        else if skip_test then
          match submit_configuration env with
          | (sev, true) =>
              ([Ev.setup, Ev.loginCall] ++ lev ++ [Ev.configureCall] ++ cev ++
                [Ev.warn "Skipping test (real printer mode)", Ev.submitCall] ++ sev ++
                [Ev.success "CONFIGURATION SUBMITTED (without test)",
                 Ev.info "Verify SMTP works by sending a test scan"], RunExit.normal)
          | (sev, false) =>
              ([Ev.setup, Ev.loginCall] ++ lev ++ [Ev.configureCall] ++ cev ++
                [Ev.warn "Skipping test (real printer mode)", Ev.submitCall] ++ sev,
               RunExit.raised)
        else
          if (test_connection env).1 = some true then
            match submit_configuration env with
            | (sev, true) =>
                ([Ev.setup, Ev.loginCall] ++ lev ++ [Ev.configureCall] ++ cev ++
                  [Ev.testCall] ++ (test_connection env).2 ++ [Ev.submitCall] ++ sev ++
                  [Ev.success "CONFIGURATION COMPLETED SUCCESSFULLY"], RunExit.normal)
            | (sev, false) =>
                ([Ev.setup, Ev.loginCall] ++ lev ++ [Ev.configureCall] ++ cev ++
                  [Ev.testCall] ++ (test_connection env).2 ++ [Ev.submitCall] ++ sev,
                 RunExit.raised)
          else
            ([Ev.setup, Ev.loginCall] ++ lev ++ [Ev.configureCall] ++ cev ++
              [Ev.testCall] ++ (test_connection env).2 ++
              [Ev.warn "Configuration filled but NOT submitted due to test failure",
               Ev.info "Review the test results and try again"], RunExit.normal)

/-- Lines 281-284, the `except Exception` clause of `run`: a caught step
exception prints the error and, when `screenshot_on_failure` is enabled,
takes `error_final`.  The `exit(1)` path is a `SystemExit` and is not
caught. -/
def runHandled (env : Env) (test_only skip_test : Bool) : List Ev :=
  match runTry env test_only skip_test with
  | (ev, RunExit.raised) =>
      ev ++ [Ev.error "Automation failed"] ++
        (if env.screenshotOnFailure then [Ev.screenshot "error_final"] else [])
  | (ev, _) => ev

/-- Lines 246-290, `run`: the `try` body with its exception handler, then the
`finally` block, which — whenever the driver was created, i.e. whenever
`setup_driver` succeeded — sleeps 2, calls `driver.quit()` and prints that the
browser was closed.  On the `exit(1)` path the driver is `None`, so `finally`
does nothing. -/
def run (env : Env) (test_only skip_test : Bool) : List Ev :=
  runHandled env test_only skip_test ++
    (if env.setupOk then [Ev.sleep 2, Ev.quit, Ev.info "Browser closed"] else [])

/-- Events that only the `run` orchestrator itself emits, never the four step
methods: the invocation markers, teardown, process exit, and the two
mode-report warnings printed by `run`. -/
def runnerOnly : Ev → Bool
  | Ev.setup => true
  | Ev.loginCall => true
  | Ev.configureCall => true
  | Ev.testCall => true
  | Ev.submitCall => true
  | Ev.quit => true
  | Ev.exitProc _ => true
  | Ev.warn m =>
      (m == "Skipping test (real printer mode)") ||
      (m == "Configuration filled but NOT submitted due to test failure")
  | Ev.click _ => false
  | Ev.sendKeys _ => false
  | Ev.screenshot _ => false
  | Ev.sleep _ => false
  | Ev.info _ => false
  | Ev.error _ => false
  | Ev.success _ => false

theorem login_runnerOnly (env : Env) : ∀ e ∈ (login env).1, runnerOnly e = false := by
  intro e he
  unfold login at he
  split at he <;> fin_cases he <;> rfl

theorem configure_runnerOnly (env : Env) :
    ∀ e ∈ (configure_smtp env).1, runnerOnly e = false := by
  intro e he
  unfold configure_smtp at he
  split at he
  · rcases hd : devicePasswordField env.passwordFields with _ | f <;>
      rw [hd] at he <;> simp at he <;>
      rcases he with rfl | rfl | rfl <;> rfl
  · fin_cases he <;> rfl

theorem clickEvents_runnerOnly (bs : List String) (n : String) :
    ∀ e ∈ clickEvents bs n, runnerOnly e = false := by
  intro e he
  unfold clickEvents at he
  rcases h : findButton bs n with _ | i <;> rw [h] at he <;> simp at he
  subst he
  rfl

theorem test_runnerOnly (env : Env) :
    ∀ e ∈ (test_connection env).2, runnerOnly e = false := by
  intro e he
  unfold test_connection at he
  split at he
  · fin_cases he <;> rfl
  · rcases hc : classifyBody env.bodyText with _ | b
    · rw [hc] at he
      simp at he
      rcases he with he | rfl | rfl | rfl
      · exact clickEvents_runnerOnly _ _ e he
      · rfl
      · decide
      · rfl
    · cases b <;> rw [hc] at he <;> simp at he <;>
        (rcases he with he | rfl | rfl | rfl;
         · exact clickEvents_runnerOnly _ _ e he
         · rfl
         · rfl
         · rfl)

theorem submit_runnerOnly (env : Env) :
    ∀ e ∈ (submit_configuration env).1, runnerOnly e = false := by
  intro e he
  unfold submit_configuration at he
  split at he
  · fin_cases he <;> rfl
  · simp at he
    rcases he with he | rfl | rfl | rfl
    · exact clickEvents_runnerOnly _ _ e he
    · rfl
    · rfl
    · rfl

theorem not_mem_of_runnerOnly {l : List Ev} (h : ∀ e ∈ l, runnerOnly e = false)
    {e : Ev} (he : runnerOnly e = true) : e ∉ l := by
  intro hm
  rw [h e hm] at he
  exact Bool.false_ne_true he

theorem count_eq_zero_of_runnerOnly {l : List Ev} (h : ∀ e ∈ l, runnerOnly e = false)
    {e : Ev} (he : runnerOnly e = true) : l.count e = 0 :=
  List.count_eq_zero.mpr (not_mem_of_runnerOnly h he)

theorem quit_not_mem_runTry (env : Env) (t s : Bool) : Ev.quit ∉ (runTry env t s).1 := by
  have hlev := not_mem_of_runnerOnly (login_runnerOnly env) (e := Ev.quit) rfl
  have hcev := not_mem_of_runnerOnly (configure_runnerOnly env) (e := Ev.quit) rfl
  have htev := not_mem_of_runnerOnly (test_runnerOnly env) (e := Ev.quit) rfl
  have hsev := not_mem_of_runnerOnly (submit_runnerOnly env) (e := Ev.quit) rfl
  unfold runTry
  repeat' split
  all_goals simp_all

theorem quit_not_mem_runHandled (env : Env) (t s : Bool) :
    Ev.quit ∉ runHandled env t s := by
  have h := quit_not_mem_runTry env t s
  unfold runHandled
  repeat' split
  all_goals simp_all

/-- Concrete sample environment: every step succeeds, the page carries test
and submit buttons, two password-type fields, and a passing test result. -/
def envPass : Env :=
  ⟨true, true, true, ["login_pw", "device_pw"], false,
   ["Execute Connection Test", "Submit"], "ALL TESTS PASSED", false, true⟩

/-- C2: on every run, whatever the mode flags and wherever a step raises,
`driver.quit` executes exactly once when the session was created (and never
otherwise), and it is reached right after the fixed 2-second delay of the
`finally` block, as the run's closing events. -/
theorem c2_teardown_exactly_once (env : Env) (t s : Bool) :
    ((run env t s).count Ev.quit = if env.setupOk then 1 else 0) ∧
    (env.setupOk = true →
      [Ev.sleep 2, Ev.quit, Ev.info "Browser closed"] <:+ run env t s) := by
  constructor
  · unfold run
    rw [List.count_append,
      List.count_eq_zero.mpr (quit_not_mem_runHandled env t s)]
    cases hsu : env.setupOk <;> simp
  · intro h
    unfold run
    rw [h]
    simp only [if_true]
    exact List.suffix_append _ _

/-- C2 witness: instantiation at the concrete environment `envPass`. -/
theorem c2_witness :
    ((run envPass false false).count Ev.quit = if envPass.setupOk then 1 else 0) ∧
    ([Ev.sleep 2, Ev.quit, Ev.info "Browser closed"] <:+ run envPass false false) :=
  ⟨(c2_teardown_exactly_once envPass false false).1,
   (c2_teardown_exactly_once envPass false false).2 rfl⟩

/-- C1: in default mode (neither flag), once the session, login and form-fill
steps succeed, `submit_configuration` is invoked exactly once when
`test_connection` returns `True` and never otherwise; on a `False` or `None`
outcome no submit happens and the run prints the filled-but-not-submitted
warning. -/
theorem c1_default_submit_iff_test_pass (env : Env) (h1 : env.setupOk = true)
    (h2 : env.loginOk = true) (h3 : env.configOk = true) :
    ((run env false false).count Ev.submitCall =
      if (test_connection env).1 = some true then 1 else 0) ∧
    ((test_connection env).1 ≠ some true →
      Ev.submitCall ∉ run env false false ∧
      Ev.warn "Configuration filled but NOT submitted due to test failure" ∈
        run env false false) := by
  rcases hL : login env with ⟨lev, lb⟩
  rcases hC : configure_smtp env with ⟨cev, cb⟩
  rcases hS : submit_configuration env with ⟨sev, sb⟩
  have hlb : lb = true := by
    have h : (login env).2 = true := by simp [login, h2]
    rw [hL] at h; exact h
  have hcb : cb = true := by
    have h : (configure_smtp env).2 = true := by simp [configure_smtp, h3]
    rw [hC] at h; exact h
  subst hlb; subst hcb
  have hlev : ∀ e ∈ lev, runnerOnly e = false := by
    have h := login_runnerOnly env; rw [hL] at h; exact h
  have hcev : ∀ e ∈ cev, runnerOnly e = false := by
    have h := configure_runnerOnly env; rw [hC] at h; exact h
  have hsev : ∀ e ∈ sev, runnerOnly e = false := by
    have h := submit_runnerOnly env; rw [hS] at h; exact h
  have htev : ∀ e ∈ (test_connection env).2, runnerOnly e = false := test_runnerOnly env
  have clev : lev.count Ev.submitCall = 0 := count_eq_zero_of_runnerOnly hlev rfl
  have ccev : cev.count Ev.submitCall = 0 := count_eq_zero_of_runnerOnly hcev rfl
  have csev : sev.count Ev.submitCall = 0 := count_eq_zero_of_runnerOnly hsev rfl
  have ctev : (test_connection env).2.count Ev.submitCall = 0 :=
    count_eq_zero_of_runnerOnly htev rfl
  have mlev : Ev.submitCall ∉ lev := not_mem_of_runnerOnly hlev rfl
  have mcev : Ev.submitCall ∉ cev := not_mem_of_runnerOnly hcev rfl
  have mtev : Ev.submitCall ∉ (test_connection env).2 := not_mem_of_runnerOnly htev rfl
  constructor
  · by_cases htr : (test_connection env).1 = some true
    · rw [if_pos htr]
      cases sb <;> cases hsf : env.screenshotOnFailure <;>
        simp [run, runHandled, runTry, h1, hL, hC, hS, htr, hsf, List.count_append,
          List.count_cons, clev, ccev, csev, ctev]
    · rw [if_neg htr]
      simp [run, runHandled, runTry, h1, hL, hC, htr, List.count_append,
        List.count_cons, clev, ccev, ctev]
  · intro htr
    constructor
    · simp [run, runHandled, runTry, h1, hL, hC, htr, mlev, mcev, mtev]
    · simp [run, runHandled, runTry, h1, hL, hC, htr]

/-- Concrete environment whose connection test fails. -/
def envFail : Env :=
  ⟨true, true, true, ["login_pw", "device_pw"], false,
   ["Execute Connection Test", "Submit"], "Connection FAILED", false, true⟩

/-- C1 witness: instantiation at `envFail`, whose test outcome is `False`. -/
theorem c1_witness :
    ((run envFail false false).count Ev.submitCall =
      if (test_connection envFail).1 = some true then 1 else 0) ∧
    (Ev.submitCall ∉ run envFail false false ∧
      Ev.warn "Configuration filled but NOT submitted due to test failure" ∈
        run envFail false false) :=
  ⟨(c1_default_submit_iff_test_pass envFail rfl rfl rfl).1,
   (c1_default_submit_iff_test_pass envFail rfl rfl rfl).2 (by decide)⟩

/-- C4: in skip-test mode, once session, login and form-fill succeed,
`submit_configuration` is invoked exactly once, `test_connection` is never
invoked, and the skipped-verification warning is printed. -/
theorem c4_skip_test_submits_once (env : Env) (h1 : env.setupOk = true)
    (h2 : env.loginOk = true) (h3 : env.configOk = true) :
    (run env false true).count Ev.submitCall = 1 ∧
    (run env false true).count Ev.testCall = 0 ∧
    Ev.warn "Skipping test (real printer mode)" ∈ run env false true := by
  rcases hL : login env with ⟨lev, lb⟩
  rcases hC : configure_smtp env with ⟨cev, cb⟩
  rcases hS : submit_configuration env with ⟨sev, sb⟩
  have hlb : lb = true := by
    have h : (login env).2 = true := by simp [login, h2]
    rw [hL] at h; exact h
  have hcb : cb = true := by
    have h : (configure_smtp env).2 = true := by simp [configure_smtp, h3]
    rw [hC] at h; exact h
  subst hlb; subst hcb
  have hlev : ∀ e ∈ lev, runnerOnly e = false := by
    have h := login_runnerOnly env; rw [hL] at h; exact h
  have hcev : ∀ e ∈ cev, runnerOnly e = false := by
    have h := configure_runnerOnly env; rw [hC] at h; exact h
  have hsev : ∀ e ∈ sev, runnerOnly e = false := by
    have h := submit_runnerOnly env; rw [hS] at h; exact h
  have cl1 : lev.count Ev.submitCall = 0 := count_eq_zero_of_runnerOnly hlev rfl
  have cc1 : cev.count Ev.submitCall = 0 := count_eq_zero_of_runnerOnly hcev rfl
  have cs1 : sev.count Ev.submitCall = 0 := count_eq_zero_of_runnerOnly hsev rfl
  have cl2 : lev.count Ev.testCall = 0 := count_eq_zero_of_runnerOnly hlev rfl
  have cc2 : cev.count Ev.testCall = 0 := count_eq_zero_of_runnerOnly hcev rfl
  have cs2 : sev.count Ev.testCall = 0 := count_eq_zero_of_runnerOnly hsev rfl
  refine ⟨?_, ?_, ?_⟩
  · cases sb <;> cases hsf : env.screenshotOnFailure <;>
      simp [run, runHandled, runTry, h1, hL, hC, hS, hsf, List.count_append,
        List.count_cons, cl1, cc1, cs1]
  · cases sb <;> cases hsf : env.screenshotOnFailure <;>
      simp [run, runHandled, runTry, h1, hL, hC, hS, hsf, List.count_append,
        List.count_cons, cl2, cc2, cs2]
  · cases sb <;> cases hsf : env.screenshotOnFailure <;>
      simp [run, runHandled, runTry, h1, hL, hC, hS, hsf]

/-- C4 witness: instantiation at `envPass`. -/
theorem c4_witness :
    (run envPass false true).count Ev.submitCall = 1 ∧
    (run envPass false true).count Ev.testCall = 0 ∧
    Ev.warn "Skipping test (real printer mode)" ∈ run envPass false true :=
  c4_skip_test_submits_once envPass rfl rfl rfl

/-- C8: when both flags are set, the test-only branch wins: once session,
login and form-fill succeed, `test_connection` is invoked exactly once,
`submit_configuration` is never invoked, and the skipped-verification warning
is not printed. -/
theorem c8_test_only_precedence (env : Env) (h1 : env.setupOk = true)
    (h2 : env.loginOk = true) (h3 : env.configOk = true) :
    (run env true true).count Ev.testCall = 1 ∧
    Ev.submitCall ∉ run env true true ∧
    Ev.warn "Skipping test (real printer mode)" ∉ run env true true := by
  rcases hL : login env with ⟨lev, lb⟩
  rcases hC : configure_smtp env with ⟨cev, cb⟩
  have hlb : lb = true := by
    have h : (login env).2 = true := by simp [login, h2]
    rw [hL] at h; exact h
  have hcb : cb = true := by
    have h : (configure_smtp env).2 = true := by simp [configure_smtp, h3]
    rw [hC] at h; exact h
  subst hlb; subst hcb
  have hlev : ∀ e ∈ lev, runnerOnly e = false := by
    have h := login_runnerOnly env; rw [hL] at h; exact h
  have hcev : ∀ e ∈ cev, runnerOnly e = false := by
    have h := configure_runnerOnly env; rw [hC] at h; exact h
  have htev : ∀ e ∈ (test_connection env).2, runnerOnly e = false := test_runnerOnly env
  have cl1 : lev.count Ev.testCall = 0 := count_eq_zero_of_runnerOnly hlev rfl
  have cc1 : cev.count Ev.testCall = 0 := count_eq_zero_of_runnerOnly hcev rfl
  have ct1 : (test_connection env).2.count Ev.testCall = 0 :=
    count_eq_zero_of_runnerOnly htev rfl
  have ml1 : Ev.submitCall ∉ lev := not_mem_of_runnerOnly hlev rfl
  have mc1 : Ev.submitCall ∉ cev := not_mem_of_runnerOnly hcev rfl
  have mt1 : Ev.submitCall ∉ (test_connection env).2 := not_mem_of_runnerOnly htev rfl
  have wl1 : Ev.warn "Skipping test (real printer mode)" ∉ lev :=
    not_mem_of_runnerOnly hlev (by decide)
  have wc1 : Ev.warn "Skipping test (real printer mode)" ∉ cev :=
    not_mem_of_runnerOnly hcev (by decide)
  have wt1 : Ev.warn "Skipping test (real printer mode)" ∉ (test_connection env).2 :=
    not_mem_of_runnerOnly htev (by decide)
  refine ⟨?_, ?_, ?_⟩
  · simp [run, runHandled, runTry, h1, hL, hC, List.count_append, List.count_cons,
      cl1, cc1, ct1]
  · simp [run, runHandled, runTry, h1, hL, hC, ml1, mc1, mt1]
  · simp [run, runHandled, runTry, h1, hL, hC, wl1, wc1, wt1]

/-- C8 witness: instantiation at `envPass`. -/
theorem c8_witness :
    (run envPass true true).count Ev.testCall = 1 ∧
    Ev.submitCall ∉ run envPass true true ∧
    Ev.warn "Skipping test (real printer mode)" ∉ run envPass true true :=
  c8_test_only_precedence envPass rfl rfl rfl

/-- C3: with no internal exception, `test_connection` classifies the body
text in order — pass with the `03_test_success` screenshot when a success
substring (`ALL TESTS PASSED` or `SUCCESSFUL`) occurs, else fail with
`03_test_failed` when `FAILED` occurs or `error` occurs case-insensitively,
else indeterminate with `03_test_unknown`. -/
theorem c3_test_classification (env : Env) (h : env.testExc = false) :
    ((strContains env.bodyText "ALL TESTS PASSED" ||
        strContains env.bodyText "SUCCESSFUL") = true →
      (test_connection env).1 = some true ∧
      Ev.screenshot "03_test_success" ∈ (test_connection env).2) ∧
    ((strContains env.bodyText "ALL TESTS PASSED" ||
        strContains env.bodyText "SUCCESSFUL") = false →
      (strContains env.bodyText "FAILED" ||
        strContains (strLower env.bodyText) "error") = true →
      (test_connection env).1 = some false ∧
      Ev.screenshot "03_test_failed" ∈ (test_connection env).2) ∧
    ((strContains env.bodyText "ALL TESTS PASSED" ||
        strContains env.bodyText "SUCCESSFUL") = false →
      (strContains env.bodyText "FAILED" ||
        strContains (strLower env.bodyText) "error") = false →
      (test_connection env).1 = none ∧
      Ev.screenshot "03_test_unknown" ∈ (test_connection env).2) := by
  refine ⟨?_, ?_, ?_⟩
  · intro hs
    simp [test_connection, classifyBody, h, hs]
  · intro hs hf
    simp [test_connection, classifyBody, h, hs, hf]
  · intro hs hf
    simp [test_connection, classifyBody, h, hs, hf]

/-- C3 witness: `envPass` has body text `ALL TESTS PASSED`, giving the pass
outcome and the success checkpoint screenshot. -/
theorem c3_witness :
    (test_connection envPass).1 = some true ∧
    Ev.screenshot "03_test_success" ∈ (test_connection envPass).2 :=
  (c3_test_classification envPass rfl).1 (by decide)

/-- C9: the success check runs before the failure check, so a body text
containing both a success substring and a failure substring is classified as
pass. -/
theorem c9_success_checked_first (env : Env) (h : env.testExc = false)
    (hs : (strContains env.bodyText "ALL TESTS PASSED" ||
      strContains env.bodyText "SUCCESSFUL") = true)
    (hf : (strContains env.bodyText "FAILED" ||
      strContains (strLower env.bodyText) "error") = true) :
    (test_connection env).1 = some true := by
  simp [test_connection, classifyBody, h, hs]

/-- Concrete environment whose body text contains both `SUCCESSFUL` and
`FAILED`. -/
def envBoth : Env :=
  ⟨true, true, true, ["device_pw"], false, ["Execute Connection Test"],
   "SUCCESSFUL checks: 4. FAILED checks: 1", false, true⟩

/-- C9 witness: instantiation at `envBoth`. -/
theorem c9_witness : (test_connection envBoth).1 = some true :=
  c9_success_checked_first envBoth rfl (by decide) (by decide)

/-- Concrete environment in which `test_connection` hits an internal
exception. -/
def envTestExc : Env :=
  ⟨true, true, true, ["device_pw"], true, [], "whatever", false, true⟩

/-- C7: an internal exception inside `test_connection` is caught; the method
returns `False` (the fail outcome) and takes the labeled error screenshot
instead of propagating. -/
theorem c7_test_exception_returns_false (env : Env) (h : env.testExc = true) :
    (test_connection env).1 = some false ∧
    Ev.screenshot "error_test_failed" ∈ (test_connection env).2 := by
  simp [test_connection, h]

/-- C7 witness: instantiation at `envTestExc`. -/
theorem c7_witness :
    (test_connection envTestExc).1 = some false ∧
    Ev.screenshot "error_test_failed" ∈ (test_connection envTestExc).2 :=
  c7_test_exception_returns_false envTestExc rfl

/-- C5: the device password goes to the last password-type input when two or
more exist (with exactly two, to the second and not the first), to the only
one when exactly one exists; with none, the step warns and completes without
raising, still taking the `02_config_filled` screenshot and printing the
success line. -/
theorem c5_device_password_selection (env : Env) (h : env.configOk = true) :
    (∀ x, 2 ≤ env.passwordFields.length → env.passwordFields.getLast? = some x →
      Ev.sendKeys x ∈ (configure_smtp env).1) ∧
    (∀ a b, env.passwordFields = [a, b] →
      Ev.sendKeys b ∈ (configure_smtp env).1 ∧
      (a ≠ b → Ev.sendKeys a ∉ (configure_smtp env).1)) ∧
    (∀ a, env.passwordFields = [a] → Ev.sendKeys a ∈ (configure_smtp env).1) ∧
    (env.passwordFields = [] →
      Ev.warn "Could not find device password field" ∈ (configure_smtp env).1 ∧
      (configure_smtp env).2 = true ∧
      Ev.screenshot "02_config_filled" ∈ (configure_smtp env).1 ∧
      Ev.success "SMTP configuration filled" ∈ (configure_smtp env).1) := by
  refine ⟨?_, ?_, ?_, ?_⟩
  · intro x hlen hlast
    simp [configure_smtp, h, devicePasswordField, hlen, hlast]
  · intro a b hab
    constructor
    · simp [configure_smtp, h, devicePasswordField, hab]
    · intro hne
      simp [configure_smtp, h, devicePasswordField, hab, hne]
  · intro a ha
    simp [configure_smtp, h, devicePasswordField, ha]
  · intro h0
    simp [configure_smtp, h, devicePasswordField, h0]

/-- C5 witness: with the two password fields of `envPass`, the device
password is written to the second one. -/
theorem c5_witness : Ev.sendKeys "device_pw" ∈ (configure_smtp envPass).1 :=
  ((c5_device_password_selection envPass rfl).2.1 "login_pw" "device_pw" rfl).1

/-- C6: loading a configuration whose file path does not exist terminates the
process with exit status 1 after printing an error message that mentions the
given path. -/
theorem c6_missing_config_exits (α : Type) (readFile : String → Option α)
    (config_path : String) (h : readFile config_path = none) :
    load_config α readFile config_path =
      Except.error (1,
        ["[ERROR] Config file not found: " ++ config_path,
         "[INFO] Copy config.example.yaml to config.yaml and customize it"]) ∧
    strContains ("[ERROR] Config file not found: " ++ config_path) config_path = true := by
  constructor
  · simp [load_config, h]
  · simp only [strContains, decide_eq_true_eq, String.toList, String.data_append]
    exact (List.suffix_append _ _).isInfix

/-- C6 witness: an empty filesystem and the default path. -/
theorem c6_witness :
    load_config Nat (fun _ => none) "config.yaml" =
      Except.error (1,
        ["[ERROR] Config file not found: " ++ "config.yaml",
         "[INFO] Copy config.example.yaml to config.yaml and customize it"]) ∧
    strContains ("[ERROR] Config file not found: " ++ "config.yaml") "config.yaml" = true :=
  c6_missing_config_exits Nat (fun _ => none) "config.yaml" rfl

/-- Concrete environment whose page has no button containing `submit`. -/
def envNoSubmitButton : Env :=
  ⟨true, true, true, ["device_pw"], false, ["Execute Connection Test", "Update"],
   "ALL TESTS PASSED", false, true⟩

/-- C10: when no button text contains `submit` (case-insensitive),
`submit_configuration` does not raise: it skips the click and still performs
the fixed 2-second delay, the `04_submitted` screenshot and the success
message. -/
theorem c10_no_submit_button_is_harmless (env : Env) (hexc : env.submitExc = false)
    (h : ∀ b ∈ env.buttons, strContains (strLower b) "submit" = false) :
    submit_configuration env =
      ([Ev.sleep 2, Ev.screenshot "04_submitted",
        Ev.success "Configuration submitted successfully"], true) := by
  have hfb : findButton env.buttons "submit" = none := by
    rw [findButton, List.findIdx?_eq_none_iff]
    intro x hx
    simpa using h x hx
  simp [submit_configuration, hexc, clickEvents, hfb]

/-- C10 witness: instantiation at `envNoSubmitButton`. -/
theorem c10_witness :
    submit_configuration envNoSubmitButton =
      ([Ev.sleep 2, Ev.screenshot "04_submitted",
        Ev.success "Configuration submitted successfully"], true) :=
  c10_no_submit_button_is_harmless envNoSubmitButton rfl (by decide)
